import Mathlib

/-
Shallow embedding of src/qdrant/init_collections.py.

The script is sequential HTTP orchestration: every network call is modelled
by an oracle value of type HttpResult (a response with a status code and a
body string, or a raised transport exception).  Each Python function becomes
a pure Lean function of the oracle(s) it consumes, returning its boolean
result together with the trace of HTTP requests it issued (and, where a
claim needs it, the printed lines or the sleeps performed).
-/

namespace QdrantInit

/-- Outcome of a single `requests.get` / `requests.put` call: either a
response carrying a status code and a body text, or a raised
transport-level exception (`requests.exceptions.RequestException` or any
other `Exception`). -/
inductive HttpResult where
  | resp (status : Nat) (body : String)
  | exn (msg : String)
deriving DecidableEq

/-- The `response.status_code == 200` test used by `wait_for_qdrant`,
`collection_exists` and `list_collections`; a raised exception never
reaches the test. -/
def statusOk200 : HttpResult → Bool
  | HttpResult.resp s _ => s == 200
  | HttpResult.exn _ => false

/-- The `response.status_code in [200, 201]` test used by
`create_collection` for the creation and index requests. -/
def statusOkCreate : HttpResult → Bool
  | HttpResult.resp s _ => s == 200 || s == 201
  | HttpResult.exn _ => false

/-- The `"vectors"` entry of a collection configuration:
`{"size": <int>, "distance": <str>}`. -/
structure VectorConfig where
  size : Nat
  distance : String
deriving DecidableEq

/-- One entry of a `payload_schema` dict.  `typeEntry` models the optional
`"type"` key read by `field_config.get("type", "keyword")`. -/
structure FieldConfig where
  typeEntry : Option String
deriving DecidableEq

/-- One value of the `COLLECTIONS` dict: the vector configuration plus the
optional `payload_schema` dict (an insertion-ordered association list;
`none` models the `"payload_schema"` key being absent). -/
structure CollectionConfig where
  vectors : VectorConfig
  payload_schema : Option (List (String × FieldConfig))
deriving DecidableEq

/-- An HTTP request issued by the script, identified by method, path and
body shape. -/
inductive Req where
  | getRoot
  | getCollection (name : String)
  | putCollection (name : String) (vectors : VectorConfig)
  | putIndex (collection fieldName fieldSchema : String)
  | getCollections
deriving DecidableEq

/-- The hardcoded `COLLECTIONS` table of init_collections.py, in
declaration (dict insertion) order. -/
def COLLECTIONS : List (String × CollectionConfig) := [
  ("documents",
    { vectors := { size := 1536, distance := "Cosine" },
      payload_schema := some [
        ("title", { typeEntry := some "text" }),
        ("content", { typeEntry := some "text" }),
        ("source", { typeEntry := some "keyword" }),
        ("timestamp", { typeEntry := some "integer" }),
        ("metadata", { typeEntry := some "json" })] }),
  ("chat_history",
    { vectors := { size := 768, distance := "Cosine" },
      payload_schema := some [
        ("user", { typeEntry := some "keyword" }),
        ("message", { typeEntry := some "text" }),
        ("response", { typeEntry := some "text" }),
        ("timestamp", { typeEntry := some "integer" }),
        ("session_id", { typeEntry := some "keyword" })] }),
  ("code_snippets",
    { vectors := { size := 768, distance := "Cosine" },
      payload_schema := some [
        ("language", { typeEntry := some "keyword" }),
        ("code", { typeEntry := some "text" }),
        ("description", { typeEntry := some "text" }),
        ("tags", { typeEntry := some "keyword[]" }),
        ("project", { typeEntry := some "keyword" })] }),
  ("knowledge_base",
    { vectors := { size := 1024, distance := "Cosine" },
      payload_schema := some [
        ("title", { typeEntry := some "text" }),
        ("content", { typeEntry := some "text" }),
        ("category", { typeEntry := some "keyword" }),
        ("tags", { typeEntry := some "keyword[]" }),
        ("url", { typeEntry := some "keyword" }),
        ("last_updated", { typeEntry := some "integer" })] })]

/-- The body of the `for i in range(max_retries)` loop of `wait_for_qdrant`,
compiled to structural recursion on the remaining iteration count
(`fuel`); `i` is the current loop index.  Returns the boolean result, the
number of liveness attempts performed, and the list of the sleep durations
performed (in order).  Attempt `i` succeeds when `probe i` is a response
with status 200; on failure the loop sleeps `delay` only when
`i < max_retries - 1`, exactly as the source line
`if i < max_retries - 1: time.sleep(delay)`. -/
def waitLoop (probe : Nat → HttpResult) (max_retries delay : Nat) :
    Nat → Nat → Bool × Nat × List Nat
  | _, 0 => (false, 0, [])
  | i, fuel + 1 =>
    if statusOk200 (probe i) then
      (true, 1, [])
    else
      let rest := waitLoop probe max_retries delay (i + 1) fuel
      if i < max_retries - 1 then
        (rest.1, rest.2.1 + 1, delay :: rest.2.2)
      else
        (rest.1, rest.2.1 + 1, rest.2.2)

/-- Model of `wait_for_qdrant(max_retries, delay)`: poll `GET /` up to `max_retries`
times.  `probe i` is the oracle outcome of the attempt with loop index `i`
(0-based). -/
def wait_for_qdrant (probe : Nat → HttpResult) (max_retries delay : Nat) :
    Bool × Nat × List Nat :=
  waitLoop probe max_retries delay 0 max_retries

/-- Model of `collection_exists(name)`: issues `GET /collections/{name}` (whose
oracle outcome is `r`) and returns `response.status_code == 200`; the bare
`except:` converts any raised exception into `False`, so the function is
total and never raises. -/
def collection_exists (r : HttpResult) : Bool :=
  match r with
  | HttpResult.resp s _ => s == 200
  | HttpResult.exn _ => false

/-- Oracle environment for one `create_collection(name, config)` call:
the outcome of the existence `GET`, of the creation `PUT`, and of the j-th
field-index `PUT` (0-based, in field order). -/
structure CreateEnv where
  existsResult : HttpResult
  createResult : HttpResult
  indexResult : Nat → HttpResult

/-- The `field_config.get("type", "keyword")` expression building
`field_schema` of an index request. -/
def fieldSchemaOf (fc : FieldConfig) : String :=
  fc.typeEntry.getD "keyword"

/-- The `for field_name, field_config in config["payload_schema"].items()`
loop of `create_collection`.  `j` counts index requests already issued.
Returns `false` exactly when some index `PUT` raises (the exception then
propagates to the outer `except` of `create_collection`, aborting the loop),
together with the index requests issued up to and including the raising
one.  A response with a non-success status merely skips the per-field
success print and the loop continues. -/
def indexFields (idxRes : Nat → HttpResult) (cname : String) :
    List (String × FieldConfig) → Nat → Bool × List Req
  | [], _ => (true, [])
  | (fname, fc) :: rest, j =>
    let req := Req.putIndex cname fname (fieldSchemaOf fc)
    match idxRes j with
    | HttpResult.exn _ => (false, [req])
    | HttpResult.resp _ _ =>
      let r := indexFields idxRes cname rest (j + 1)
      (r.1, req :: r.2)

/-- Model of `create_collection(name, config)`: existence check, skip-or-create,
then one index request per payload field, all faithful to the control
flow of the source (the index loop sits inside the same `try` as the creation
request, so a raised index exception reaches the outer `except` and yields
`False`).  Returns the boolean result and the trace of requests issued. -/
def create_collection (env : CreateEnv) (name : String)
    (config : CollectionConfig) : Bool × List Req :=
  if collection_exists env.existsResult then
    (true, [Req.getCollection name])
  else
    match env.createResult with
    | HttpResult.exn _ =>
      (false, [Req.getCollection name, Req.putCollection name config.vectors])
    | HttpResult.resp s _ =>
      if s == 200 || s == 201 then
        match config.payload_schema with
        | none =>
          (true, [Req.getCollection name, Req.putCollection name config.vectors])
        | some fields =>
          let r := indexFields env.indexResult name fields 0
          (r.1, Req.getCollection name :: Req.putCollection name config.vectors :: r.2)
      else
        (false, [Req.getCollection name, Req.putCollection name config.vectors])

/-- Oracle for one `list_collections()` call: either the `GET /collections`
raises, or it returns a status code together with the (already parsed)
list of collection names of the response body
(`data["result"]["collections"][*]["name"]`, in service order). -/
inductive ListEnv where
  | exn (msg : String)
  | resp (status : Nat) (names : List String)

/-- Model of `list_collections()`: returns the list of lines it prints.  A raised
exception is caught and printed as an error diagnostic; a 200 response
prints the inventory (or a "No collections found" line); a response with
any other status code prints nothing at all — the `if` simply falls
through.  The function is total: it never raises and always continues. -/
def list_collections : ListEnv → List String
  | ListEnv.exn msg => ["Error listing collections: " ++ msg]
  | ListEnv.resp status names =>
    if status == 200 then
      if names.isEmpty then
        ["No collections found"]
      else
        "Existing collections:" :: names.map (fun n => "  • " ++ n)
    else []

/-- Oracle environment for one run of `main()`: the probe oracle consumed
by `wait_for_qdrant`, the outcome of the version-info `GET /`, the oracle
environment of the `create_collection` call of each collection, and the oracle
of the final `list_collections()`. -/
structure MainEnv where
  probe : Nat → HttpResult
  info : HttpResult
  collEnv : String → CreateEnv
  listEnv : ListEnv

/-- Observable outcome of `main()`: the process exit status, the final
`success_count`, the `Created M/N` summary line (absent when the script
exits early), and the inventory lines printed by `list_collections`. -/
structure MainOutcome where
  exitCode : Nat
  successCount : Nat
  summary : Option String
  inventory : List String
deriving DecidableEq

/-- Model of `main()`: wait for the service (30 retries, 2s delay — the
defaults of the source); on failure `sys.exit(1)`.  Otherwise fetch the version info
(any failure silently swallowed), provision every entry of `COLLECTIONS`
in order accumulating `success_count`, print the summary, list the
collections, and fall off the end of the script (exit status 0). -/
def main (env : MainEnv) : MainOutcome :=
  if (wait_for_qdrant env.probe 30 2).1 then
    let success_count :=
      COLLECTIONS.foldl
        (fun acc p =>
          if (create_collection (env.collEnv p.1) p.1 p.2).1 then acc + 1
          else acc) 0
    { exitCode := 0,
      successCount := success_count,
      summary := some ("Created " ++ toString success_count ++ "/" ++
        toString COLLECTIONS.length ++ " collections successfully"),
      inventory := list_collections env.listEnv }
  else
    { exitCode := 1, successCount := 0, summary := none, inventory := [] }

/-! ## Helper lemmas -/

/-- If every index oracle outcome is a response (no raised exception), the
payload-field loop completes and its boolean component is `true`,
regardless of the response status codes. -/
theorem indexFields_fst_of_resp (idxRes : Nat → HttpResult) (cname : String)
    (hresp : ∀ j, ∃ s b, idxRes j = HttpResult.resp s b) :
    ∀ fields j, (indexFields idxRes cname fields j).1 = true := by
  intro fields
  induction fields with
  | nil => intro j; rfl
  | cons p rest ih =>
    intro j
    obtain ⟨fn, fc⟩ := p
    obtain ⟨s, b, hj⟩ := hresp j
    simp [indexFields, hj, ih (j + 1)]

/-- Every `putIndex` request issued by the payload-field loop carries, as
its `field_schema`, the `type` entry of the configuration of the
corresponding field, defaulting to `"keyword"`. -/
theorem indexFields_schema (idxRes : Nat → HttpResult) (cname : String) :
    ∀ fields j, ∀ c f s,
      Req.putIndex c f s ∈ (indexFields idxRes cname fields j).2 →
      c = cname ∧ ∃ fc, (f, fc) ∈ fields ∧ s = fieldSchemaOf fc := by
  intro fields
  induction fields with
  | nil => intro j c f s h; simp [indexFields] at h
  | cons p rest ih =>
    intro j c f s h
    obtain ⟨fn, fc⟩ := p
    cases hj : idxRes j with
    | exn msg =>
      rw [indexFields, hj] at h
      simp only [List.mem_singleton, Req.putIndex.injEq] at h
      obtain ⟨rfl, rfl, rfl⟩ := h
      exact ⟨rfl, fc, List.mem_cons_self _ _, rfl⟩
    | resp st b =>
      rw [indexFields, hj] at h
      simp only [List.mem_cons, Req.putIndex.injEq] at h
      rcases h with ⟨rfl, rfl, rfl⟩ | h
      · exact ⟨rfl, fc, List.mem_cons_self _ _, rfl⟩
      · obtain ⟨rfl, fc2, hmem, rfl⟩ := ih (j + 1) c f s h
        exact ⟨rfl, fc2, List.mem_cons_of_mem _ hmem, rfl⟩

/-- One unfolding of the polling loop at a positive remaining count. -/
theorem waitLoop_succ (probe : Nat → HttpResult) (m d i fuel : Nat) :
    waitLoop probe m d i (fuel + 1) =
      if statusOk200 (probe i) then
        (true, 1, [])
      else
        let rest := waitLoop probe m d (i + 1) fuel
        if i < m - 1 then (rest.1, rest.2.1 + 1, d :: rest.2.2)
        else (rest.1, rest.2.1 + 1, rest.2.2) := rfl

/-- When every attempt with index in `[i, max_retries)` fails, the polling
loop performs all its remaining attempts, sleeps after each but the last,
and returns failure. -/
theorem waitLoop_allFail (probe : Nat → HttpResult) (max_retries delay : Nat) :
    ∀ fuel i, i + fuel = max_retries →
      (∀ j, i ≤ j → j < max_retries → statusOk200 (probe j) = false) →
      waitLoop probe max_retries delay i fuel =
        (false, fuel, List.replicate (fuel - 1) delay) := by
  intro fuel
  induction fuel with
  | zero => intro i _ _; rfl
  | succ f ih =>
    intro i hi hfail
    have hfi : statusOk200 (probe i) = false :=
      hfail i (Nat.le_refl i) (by omega)
    have hrest := ih (i + 1) (by omega)
      (fun j hj hj2 => hfail j (by omega) hj2)
    by_cases hlt : i < max_retries - 1
    · obtain ⟨g, rfl⟩ : ∃ g, f = g + 1 := ⟨f - 1, by omega⟩
      rw [waitLoop_succ, if_neg (by simp [hfi]), hrest]
      simp [hlt, List.replicate_succ]
    · have hf0 : f = 0 := by omega
      subst hf0
      rw [waitLoop_succ, if_neg (by simp [hfi]), hrest]
      simp [hlt]

/-- The polling loop reports reachability exactly when some attempt in its
index range receives a 200 response. -/
theorem waitLoop_fst_true_iff (probe : Nat → HttpResult)
    (max_retries delay : Nat) :
    ∀ fuel i, ((waitLoop probe max_retries delay i fuel).1 = true ↔
      ∃ j, i ≤ j ∧ j < i + fuel ∧ statusOk200 (probe j) = true) := by
  intro fuel
  induction fuel with
  | zero =>
    intro i
    constructor
    · intro h; exact absurd h (by simp [waitLoop])
    · rintro ⟨j, hj1, hj2, -⟩; exfalso; omega
  | succ f ih =>
    intro i
    by_cases hp : statusOk200 (probe i) = true
    · constructor
      · intro _; exact ⟨i, Nat.le_refl i, by omega, hp⟩
      · intro _; rw [waitLoop_succ, if_pos hp]
    · have hp2 : statusOk200 (probe i) = false := by
        cases hs : statusOk200 (probe i) with
        | true => exact absurd hs hp
        | false => rfl
      have hfst : (waitLoop probe max_retries delay i (f + 1)).1 =
          (waitLoop probe max_retries delay (i + 1) f).1 := by
        rw [waitLoop_succ, if_neg (by simp [hp2])]
        by_cases hlt : i < max_retries - 1 <;> simp [hlt]
      rw [hfst, ih (i + 1)]
      constructor
      · rintro ⟨j, h1, h2, h3⟩; exact ⟨j, by omega, by omega, h3⟩
      · rintro ⟨j, h1, h2, h3⟩
        rcases Nat.eq_or_lt_of_le h1 with rfl | hlt2
        · simp [hp2] at h3
        · exact ⟨j, by omega, by omega, h3⟩

/-- When attempts `i, …, k-2` fail and attempt `k-1` receives a 200
response, the polling loop started at index `i` succeeds after performing
attempts `i` through `k-1` with one sleep after each failing attempt. -/
theorem waitLoop_firstSuccess (probe : Nat → HttpResult)
    (max_retries delay k : Nat)
    (hk1 : 1 ≤ k) (hk2 : k ≤ max_retries)
    (hfail : ∀ j, j < k - 1 → statusOk200 (probe j) = false)
    (hsucc : statusOk200 (probe (k - 1)) = true) :
    ∀ fuel i, i + fuel = max_retries → i ≤ k - 1 →
      waitLoop probe max_retries delay i fuel =
        (true, k - i, List.replicate (k - 1 - i) delay) := by
  intro fuel
  induction fuel with
  | zero => intro i hi hik; exfalso; omega
  | succ f ih =>
    intro i hi hik
    rcases Nat.eq_or_lt_of_le hik with heq | hlt
    · subst heq
      have e1 : k - (k - 1) = 1 := by omega
      have e2 : k - 1 - (k - 1) = 0 := by omega
      rw [waitLoop_succ, if_pos hsucc, e1, e2]
      simp
    · have hfi : statusOk200 (probe i) = false := hfail i hlt
      have hlt2 : i < max_retries - 1 := by omega
      have hrest := ih (i + 1) (by omega) (by omega)
      have h1 : k - (i + 1) + 1 = k - i := by omega
      obtain ⟨g, hg⟩ : ∃ g, k - 1 - i = g + 1 := ⟨k - 2 - i, by omega⟩
      have h2 : k - 1 - (i + 1) = g := by omega
      rw [waitLoop_succ, if_neg (by simp [hfi]), hrest]
      simp only [if_pos hlt2, h1, h2, hg, List.replicate_succ]

/-- Counting loop: accumulating `acc + 1` over the elements satisfying a
boolean predicate computes the length of the filtered list. -/
theorem foldl_count_eq {α : Type} (f : α → Bool) (l : List α) :
    ∀ n, l.foldl (fun acc p => if f p then acc + 1 else acc) n =
      n + (l.filter f).length := by
  induction l with
  | nil => intro n; simp
  | cons a t ih =>
    intro n
    by_cases h : f a
    · simp [h, ih]; omega
    · simp [h, ih]

/-! ## Concrete oracle environments used by counterexamples and witnesses -/

/-- A small collection configuration with two payload fields, one of them
lacking a `type` entry. -/
def sampleConfig : CollectionConfig :=
  { vectors := { size := 4, distance := "Cosine" },
    payload_schema := some [
      ("alpha", { typeEntry := none }),
      ("beta", { typeEntry := some "integer" })] }

/-- Oracle: collection absent, creation succeeds, every index request
raises a transport-level exception. -/
def c1ExnEnv : CreateEnv :=
  { existsResult := HttpResult.resp 404 "",
    createResult := HttpResult.resp 200 "",
    indexResult := fun _ => HttpResult.exn "connection refused" }

/-- Oracle: collection absent, creation succeeds, every index request
returns a non-success 500 response. -/
def c1BadStatusEnv : CreateEnv :=
  { existsResult := HttpResult.resp 404 "",
    createResult := HttpResult.resp 200 "",
    indexResult := fun _ => HttpResult.resp 500 "err" }

/-- Oracle: the existence check reports the collection present. -/
def c2Env : CreateEnv :=
  { existsResult := HttpResult.resp 200 "",
    createResult := HttpResult.exn "unused",
    indexResult := fun _ => HttpResult.exn "unused" }

/-- Oracle: collection absent, creation and every index request succeed. -/
def c10Env : CreateEnv :=
  { existsResult := HttpResult.resp 404 "",
    createResult := HttpResult.resp 200 "",
    indexResult := fun _ => HttpResult.resp 200 "" }

/-! ## Claims -/

/-- C1 (counterexample): the claim that index-request failures never flip
the provisioner result is false for transport-level errors.  Here the
creation request itself received a success status (200), yet
`create_collection` returns `false`, because the index loop sits inside
the same `try` block as the creation request and the raised index
exception reaches the outer `except Exception` handler, which returns
`False`. -/
theorem C1_counterexample :
    collection_exists c1ExnEnv.existsResult = false ∧
    statusOkCreate c1ExnEnv.createResult = true ∧
    (create_collection c1ExnEnv "documents" sampleConfig).1 = false :=
  ⟨rfl, rfl, rfl⟩

/-- C1 (amended): the provisioner returns true whenever the creation
request received a success status and every per-field index request
returns an HTTP response — index responses with a non-success status never
flip the result to false; only an index request that raises a
transport-level exception (caught by the outer handler) does. -/
theorem C1_provisioner_true (env : CreateEnv) (name : String)
    (config : CollectionConfig)
    (hc : statusOkCreate env.createResult = true)
    (hidx : ∀ j, ∃ s b, env.indexResult j = HttpResult.resp s b) :
    (create_collection env name config).1 = true := by
  unfold create_collection
  by_cases he : collection_exists env.existsResult
  · simp [he]
  · cases hcr : env.createResult with
    | exn msg => rw [hcr] at hc; simp [statusOkCreate] at hc
    | resp s b =>
      rw [hcr] at hc
      simp only [statusOkCreate] at hc
      cases hps : config.payload_schema with
      | none => simp [he, hc, hps]
      | some fields =>
        simp [he, hc, hps,
          indexFields_fst_of_resp env.indexResult name hidx fields 0]

/-- C1 (witness): with index requests answered by non-success 500
responses, the provisioner still returns true. -/
theorem C1_provisioner_true_witness :
    statusOkCreate c1BadStatusEnv.createResult = true ∧
    (create_collection c1BadStatusEnv "documents" sampleConfig).1 = true :=
  ⟨rfl, C1_provisioner_true c1BadStatusEnv "documents" sampleConfig rfl
    (fun _ => ⟨500, "err", rfl⟩)⟩

/-- C2: when the existence checker reports the collection present,
`create_collection` returns true and its request trace is exactly the one
existence `GET` — no creation request and no index request is issued
(mutual exclusion between the skip path and the create path). -/
theorem C2_skip_idempotent (env : CreateEnv) (name : String)
    (config : CollectionConfig)
    (h : collection_exists env.existsResult = true) :
    (create_collection env name config).1 = true ∧
    (create_collection env name config).2 = [Req.getCollection name] := by
  simp [create_collection, h]

/-- C2 (witness): concrete skip-path run. -/
theorem C2_skip_idempotent_witness :
    collection_exists c2Env.existsResult = true ∧
    (create_collection c2Env "documents" sampleConfig).1 = true ∧
    (create_collection c2Env "documents" sampleConfig).2 =
      [Req.getCollection "documents"] :=
  ⟨rfl, (C2_skip_idempotent c2Env "documents" sampleConfig rfl).1,
    (C2_skip_idempotent c2Env "documents" sampleConfig rfl).2⟩

/-- C4: `collection_exists` returns true exactly when the existence
request produced a response with the success status 200; a raised
transport exception yields false (the bare `except:` means the checker
never raises to its caller — it is a total boolean function). -/
theorem C4_exists_iff (r : HttpResult) :
    (collection_exists r = true ↔ ∃ body, r = HttpResult.resp 200 body) ∧
    (∀ msg, collection_exists (HttpResult.exn msg) = false) := by
  refine ⟨?_, fun msg => rfl⟩
  cases r with
  | resp s b => simp [collection_exists]
  | exn m => simp [collection_exists]

/-- C4 (witness): a 200 response makes the checker report existence. -/
theorem C4_exists_iff_witness :
    collection_exists (HttpResult.resp 200 "ok") = true :=
  (C4_exists_iff (HttpResult.resp 200 "ok")).1.mpr ⟨"ok", rfl⟩

/-- C5 (counterexample): the claim that the inventory reporter prints an
error diagnostic on every failure is false for a non-success response
status: on a 500 response `list_collections` prints nothing at all — the
`if response.status_code == 200` simply falls through with no `else`. -/
theorem C5_counterexample :
    list_collections (ListEnv.resp 500 ["documents"]) = [] := rfl

/-- C5 (amended): the inventory reporter prints an error diagnostic on a
transport error; on a non-success response status it prints nothing; in
both cases it returns normally (never raises, never terminates the
process) and the run continues. -/
theorem C5_reporter (msg : String) (status : Nat) (names : List String)
    (h : status ≠ 200) :
    list_collections (ListEnv.exn msg) =
      ["Error listing collections: " ++ msg] ∧
    list_collections (ListEnv.resp status names) = [] := by
  refine ⟨rfl, ?_⟩
  simp [list_collections, h]

/-- C5 (witness): concrete transport error and concrete 500 response. -/
theorem C5_reporter_witness :
    list_collections (ListEnv.exn "boom") =
      ["Error listing collections: boom"] ∧
    list_collections (ListEnv.resp 500 []) = [] :=
  C5_reporter "boom" 500 [] (by decide)

/-- C9: the hardcoded `COLLECTIONS` table holds exactly the four
specifications documents (1536), chat_history (768), code_snippets (768)
and knowledge_base (1024), all with Cosine distance, with 5, 5, 5 and 6
payload fields respectively; names are pairwise distinct, every vector
size is positive and every payload field name is non-empty. -/
theorem C9_collections_table :
    COLLECTIONS.map (fun p => p.1) =
      ["documents", "chat_history", "code_snippets", "knowledge_base"] ∧
    COLLECTIONS.map (fun p => p.2.vectors.size) = [1536, 768, 768, 1024] ∧
    (∀ p ∈ COLLECTIONS, p.2.vectors.distance = "Cosine") ∧
    COLLECTIONS.map (fun p => (p.2.payload_schema.getD []).length) =
      [5, 5, 5, 6] ∧
    (COLLECTIONS.map (fun p => p.1)).Nodup ∧
    (∀ p ∈ COLLECTIONS, 0 < p.2.vectors.size) ∧
    (∀ p ∈ COLLECTIONS, ∀ f ∈ p.2.payload_schema.getD [], f.1 ≠ "") := by
  decide

/-- C10: every field-index request issued by `create_collection` carries
as `field_schema` the `type` entry of the configuration of that field when
present, and the default string `"keyword"` when the `type` key is
absent. -/
theorem C10_field_schema (env : CreateEnv) (name : String)
    (config : CollectionConfig) (c f s : String)
    (h : Req.putIndex c f s ∈ (create_collection env name config).2) :
    ∃ fc, (f, fc) ∈ config.payload_schema.getD [] ∧
      s = fc.typeEntry.getD "keyword" := by
  unfold create_collection at h
  by_cases he : collection_exists env.existsResult
  · simp [he] at h
  · cases hcr : env.createResult with
    | exn msg => rw [hcr] at h; simp [he] at h
    | resp st b =>
      rw [hcr] at h
      by_cases hok : (st == 200 || st == 201) = true
      · cases hps : config.payload_schema with
        | none => rw [hps] at h; simp [he, hok] at h
        | some fields =>
          rw [hps] at h
          simp only [he, hok, if_true, if_false, Bool.false_eq_true,
            List.mem_cons] at h
          rcases h with h | h | h
          · exact absurd h (by simp)
          · exact absurd h (by simp)
          · obtain ⟨-, fc, hmem, hs⟩ :=
              indexFields_schema env.indexResult name fields 0 c f s h
            exact ⟨fc, by simp [hps, hmem], hs⟩
      · simp [he, hok] at h

/-- C10 (witness): the field `alpha` of `sampleConfig` has no `type`
entry, and the index request issued for it carries the default schema
`"keyword"`. -/
theorem C10_field_schema_witness :
    Req.putIndex "c" "alpha" "keyword" ∈
      (create_collection c10Env "c" sampleConfig).2 ∧
    ∃ fc, ("alpha", fc) ∈ sampleConfig.payload_schema.getD [] ∧
      "keyword" = fc.typeEntry.getD "keyword" :=
  ⟨by decide,
    C10_field_schema c10Env "c" sampleConfig "c" "alpha" "keyword" (by decide)⟩

/-- Oracle for a `main` run whose backing service never answers. -/
def c3DownEnv : MainEnv :=
  { probe := fun _ => HttpResult.exn "connection refused",
    info := HttpResult.exn "connection refused",
    collEnv := fun _ =>
      { existsResult := HttpResult.exn "connection refused",
        createResult := HttpResult.exn "connection refused",
        indexResult := fun _ => HttpResult.exn "connection refused" },
    listEnv := ListEnv.exn "connection refused" }

/-- Probe oracle that fails on attempt index 0 and answers 200 from
attempt index 1 on. -/
def c7Probe : Nat → HttpResult := fun i =>
  if i == 0 then HttpResult.exn "connection refused"
  else HttpResult.resp 200 "ok"

/-- Oracle for a `main` run where the service is up at once, all four
collections are absent, and every creation and index request succeeds. -/
def c8Env : MainEnv :=
  { probe := fun _ => HttpResult.resp 200 "ok",
    info := HttpResult.resp 200 "ok",
    collEnv := fun _ =>
      { existsResult := HttpResult.resp 404 "",
        createResult := HttpResult.resp 200 "",
        indexResult := fun _ => HttpResult.resp 200 "" },
    listEnv := ListEnv.resp 200
      ["documents", "chat_history", "code_snippets", "knowledge_base"] }

/-- C3: the process exit status is 1 exactly when every one of the 30
liveness attempts fails (the prober exhausts its retry budget without the
service becoming reachable), 0 exactly when some attempt succeeds — the
provisioning oracles do not occur in either condition, so provisioning
failures never change the exit status — and no other exit status is
possible. -/
theorem C3_exit_status (env : MainEnv) :
    ((main env).exitCode = 1 ↔
      ∀ i, i < 30 → statusOk200 (env.probe i) = false) ∧
    ((main env).exitCode = 0 ↔
      ∃ i, i < 30 ∧ statusOk200 (env.probe i) = true) ∧
    ((main env).exitCode = 0 ∨ (main env).exitCode = 1) := by
  have hiff := waitLoop_fst_true_iff env.probe 30 2 30 0
  by_cases hw : (wait_for_qdrant env.probe 30 2).1 = true
  · obtain ⟨j, -, hj2, hj3⟩ := hiff.mp hw
    refine ⟨⟨?_, ?_⟩, ⟨?_, ?_⟩, Or.inl (by simp [main, hw])⟩
    · intro h0; simp [main, hw] at h0
    · intro hall; exact absurd (hall j (by omega)) (by simp [hj3])
    · intro _; exact ⟨j, by omega, hj3⟩
    · intro _; simp [main, hw]
  · have hall : ∀ i, i < 30 → statusOk200 (env.probe i) = false := by
      intro i hi
      cases hs : statusOk200 (env.probe i) with
      | false => rfl
      | true =>
        exact absurd (hiff.mpr ⟨i, Nat.zero_le i, by omega, hs⟩) hw
    refine ⟨⟨fun _ => hall, fun _ => by simp [main, hw]⟩, ⟨?_, ?_⟩,
      Or.inr (by simp [main, hw])⟩
    · intro h0; simp [main, hw] at h0
    · rintro ⟨i, hi, hs⟩; exact absurd hs (by simp [hall i hi])

/-- C3 (witness): with a never-reachable service, `main` exits with
status 1. -/
theorem C3_exit_status_witness : (main c3DownEnv).exitCode = 1 :=
  (C3_exit_status c3DownEnv).1.mpr (fun i _ => rfl)

/-- C6: when every liveness attempt fails (transport error or non-success
status), the prober performs exactly `max_retries` attempts, sleeps
`delay` after each attempt but the last (`max_retries - 1` sleeps), and
returns false. -/
theorem C6_exhausts_budget (max_retries delay : Nat)
    (probe : Nat → HttpResult) (hmax : 1 ≤ max_retries)
    (hfail : ∀ i, i < max_retries → statusOk200 (probe i) = false) :
    wait_for_qdrant probe max_retries delay =
      (false, max_retries, List.replicate (max_retries - 1) delay) :=
  waitLoop_allFail probe max_retries delay max_retries 0 (by omega)
    (fun j _ hj2 => hfail j hj2)

/-- C6 (witness): three always-failing attempts with delay 2 give three
attempts, two sleeps of 2, and result false. -/
theorem C6_exhausts_budget_witness :
    wait_for_qdrant (fun _ => HttpResult.exn "connection refused") 3 2 =
      (false, 3, [2, 2]) :=
  C6_exhausts_budget 3 2 (fun _ => HttpResult.exn "connection refused")
    (by decide) (fun _ _ => rfl)

/-- C7: when the liveness request first receives a success code on attempt
`k` (1-based, `k ≤ max_retries`), the prober returns true after exactly
`k` attempts, with one `delay` sleep after each of the `k - 1` failing
attempts and none after the successful one. -/
theorem C7_early_exit (max_retries delay k : Nat) (probe : Nat → HttpResult)
    (hk1 : 1 ≤ k) (hk2 : k ≤ max_retries)
    (hfail : ∀ j, j < k - 1 → statusOk200 (probe j) = false)
    (hsucc : statusOk200 (probe (k - 1)) = true) :
    wait_for_qdrant probe max_retries delay =
      (true, k, List.replicate (k - 1) delay) := by
  have h := waitLoop_firstSuccess probe max_retries delay k hk1 hk2 hfail
    hsucc max_retries 0 (by omega) (by omega)
  simpa using h

/-- C7 (witness): service reachable on attempt 2 of 5 with delay 3 — two
attempts, one sleep, result true. -/
theorem C7_early_exit_witness :
    wait_for_qdrant c7Probe 5 3 = (true, 2, [3]) :=
  C7_early_exit 5 3 2 c7Probe (by decide) (by decide)
    (fun j hj => by
      have hj0 : j = 0 := by omega
      subst hj0; rfl)
    rfl

/-- C8: after the orchestrator iterates over all `N = |COLLECTIONS|`
specifications, `success_count` equals the number `M` of specifications
for which `create_collection` returned true, and the printed summary line
is `Created M/N collections successfully`. -/
theorem C8_summary (env : MainEnv)
    (h : (wait_for_qdrant env.probe 30 2).1 = true) :
    (main env).successCount =
      (COLLECTIONS.filter
        (fun p => (create_collection (env.collEnv p.1) p.1 p.2).1)).length ∧
    (main env).summary = some ("Created " ++
      toString (COLLECTIONS.filter
        (fun p => (create_collection (env.collEnv p.1) p.1 p.2).1)).length ++
      "/" ++ toString COLLECTIONS.length ++ " collections successfully") := by
  have hcount :
      COLLECTIONS.foldl
        (fun acc p =>
          if (create_collection (env.collEnv p.1) p.1 p.2).1 then acc + 1
          else acc) 0 =
      (COLLECTIONS.filter
        (fun p => (create_collection (env.collEnv p.1) p.1 p.2).1)).length := by
    simpa using foldl_count_eq
      (fun p => (create_collection (env.collEnv p.1) p.1 p.2).1) COLLECTIONS 0
  constructor <;> simp [main, h, hcount]

/-- C8 (witness): with all four creations succeeding, the counter is 4 out
of 4 and the summary says so. -/
theorem C8_summary_witness :
    (wait_for_qdrant c8Env.probe 30 2).1 = true ∧
    (main c8Env).successCount =
      (COLLECTIONS.filter
        (fun p => (create_collection (c8Env.collEnv p.1) p.1 p.2).1)).length ∧
    (main c8Env).summary = some ("Created " ++
      toString (COLLECTIONS.filter
        (fun p => (create_collection (c8Env.collEnv p.1) p.1 p.2).1)).length ++
      "/" ++ toString COLLECTIONS.length ++ " collections successfully") :=
  ⟨rfl, C8_summary c8Env rfl⟩

end QdrantInit
